import Mathlib

/-!
Shallow embedding of the Ethernet learning switch in `src/switch/switch.c`
(the first, most recent draft in that file; the claims' line references
match it).  The table storage that `mappings_size = 10` and
`mappings_next_empty` index is modeled as an explicit 10-slot list of
`Mapping` values — the reading the program's own indexing assumes.  (The
draft in fact never allocates `mappings`; that allocation defect is
orthogonal to the table logic the claims are about and is recorded here,
not modeled as extra behavior.)  Pointer-valued conditions in the source
are embedded by the values they have for such an allocation, each one
documented at its definition.  Machine integers: interface numbers and
bytes are `Nat` (with explicit `% 65536` where the code truncates to
`uint16_t`), `time_t` is `Int`.
-/

/-- A MAC address: the 6 bytes of `struct MacAddress` (switch.c line 42-44
via glab.h), as a list of byte values. -/
abbrev Mac := List Nat

/-- The broadcast MAC address FF:FF:FF:FF:FF:FF. -/
def broadcastMac : Mac := List.replicate 6 255

/-- One entry of the address table, `struct Mapping` (switch.c lines 65-70):
MAC, interface number, and the `time_t` at which it was remembered. -/
structure Mapping where
  mac : Mac
  ifc_num : Nat
  timeRemembered : Int
deriving DecidableEq, Repr

/-- Default slot value (the all-zero slot the table starts from). -/
def zeroMapping : Mapping := ⟨List.replicate 6 0, 0, 0⟩

/-- `mappings_size` (switch.c line 72): the fixed table capacity, 10. -/
def mappings_size : Nat := 10

/-- The global mutable state of the switch process: the address table
`mappings` with its fill counter `mappings_next_empty` (lines 72-74), the
interface count `num_ifc` (line 79) and the per-interface MAC identities
stored in `gifc` (line 84; `gifc[a].ifc_num = a + 1` is fixed by `main`,
lines 329-332, so only the MACs are state). -/
structure SwitchState where
  mappings : List Mapping
  mappings_next_empty : Nat
  num_ifc : Nat
  ifc_macs : List Mac
deriving DecidableEq, Repr

/-- Initial process state: `mappings_next_empty = 0` over zeroed slots,
`n` interfaces (spec section 3: table initialized empty at startup). -/
def initialState (n : Nat) : SwitchState :=
  ⟨List.replicate mappings_size zeroMapping, 0, n, List.replicate n (List.replicate 6 0)⟩

/-- `maccmp` (switch.c lines 341-344): `memcmp` over the 6 MAC bytes.
Only its zero-ness is ever tested, so unequal contents are mapped to 1. -/
def maccmp (mac1 mac2 : Mac) : Int :=
  if mac1 = mac2 then 0 else 1

/-- Value of the guard at switch.c line 176,
`if (&(mappings[i]) == NULL || &(mappings[i]).mac == NULL)`: the address of
an element (or of a field of an element) of the allocated table is never
null, so the guard is false on every iteration and the in-place update at
lines 178-186 is dead code. -/
def line176_null_check : Bool := false

/-- Value of the guard at switch.c line 142, `if (&(eh).dst == NULL)`: the
address of a field of the local variable `eh` is never null, so the
broadcast-destination branch at lines 142-157 never runs. -/
def line142_dst_addr_null : Bool := false

/-- The loop at switch.c lines 174-194, iterating over the 10 table slots.
It carries `oldest` (initialized to `time(NULL)`, line 170) and
`oldestIndex`; `i` is the slot index of the list head.  The body first has
the (dead, see `line176_null_check`) presence branch — note its condition
`maccmp(...)` is truthy when the MACs DIFFER, one more inversion in the
dead code — which would return the found slot and break; otherwise it
updates the running oldest slot when `difftime(t, oldest) < 0`, i.e.
`t < oldest`.  Returns (found slot if any, oldestIndex). -/
def learnScan (src : Mac) : List Mapping → Int → Nat → Nat → Option Nat × Nat
  | [], _, oldestIndex, _ => (none, oldestIndex)
  | m :: rest, oldest, oldestIndex, i =>
    if line176_null_check = true ∧ maccmp m.mac src ≠ 0 then
      (some i, oldestIndex)
    else if m.timeRemembered < oldest then
      learnScan src rest m.timeRemembered i (i + 1)
    else
      learnScan src rest oldest oldestIndex (i + 1)

/-- The slot index the learn step overwrites when the table is full: the
`oldestIndex` computed by the scan (switch.c lines 170-194, used at 211). -/
def evictIndex (st : SwitchState) (src : Mac) (now : Int) : Nat :=
  (learnScan src st.mappings now 0 0).2

/-- The learn step of `parse_frame` (switch.c lines 167-217): scan for the
source MAC (dead branch) while tracking the oldest slot; since the
presence branch never fires, `isNew` is always 1 and the entry is written
to `mappings_next_empty` while free slots remain, else over the oldest
slot.  Both `time(NULL)` calls (lines 169-170) are modeled as `now`. -/
def learn (st : SwitchState) (src : Mac) (ifcNum : Nat) (now : Int) : SwitchState :=
  match learnScan src st.mappings now 0 0 with
  | (some i, _) =>
    { st with mappings :=
        st.mappings.set i (Mapping.mk (st.mappings.getD i zeroMapping).mac ifcNum now) }
  | (none, oldestIndex) =>
    let index := if st.mappings_next_empty < mappings_size then st.mappings_next_empty
                 else oldestIndex
    { st with
      mappings := st.mappings.set index ⟨src, ifcNum, now⟩,
      mappings_next_empty :=
        if st.mappings_next_empty < mappings_size then st.mappings_next_empty + 1
        else st.mappings_next_empty }

/-- Crash outcomes of undefined operations the code actually performs. -/
inductive Crash where
  | nullRead
deriving DecidableEq, Repr

/-- The destination-lookup loop of `parse_frame` (switch.c lines 221-234).
Its condition is `maccmp(&(mappings[i].mac), &(eh.dst) == 0)`: the second
argument is the comparison `&(eh.dst) == 0`, an `int` 0, converted to a
null `struct MacAddress *`, so `memcmp` reads 6 bytes at address 0 and the
process faults on the first iteration.  Modeled as a crash whenever the
table has at least one slot (it always has 10). -/
def lookupLoop : List Mapping → Except Crash (Option Nat)
  | [] => .ok none
  | _ :: _ => .error .nullRead

/-- Modelled from the spec: the 4-byte `struct GLAB_MessageHeader` is
declared in `glab.h`, which is not under `src/`; spec section 6 gives its
layout as a 16-bit big-endian `size` followed by a 16-bit big-endian
`type`.  `htons16 n` is the big-endian byte pair of `n mod 2^16`, matching
`htons` applied to a value truncated to `uint16_t`. -/
def htons16 (n : Nat) : List Nat :=
  [n % 65536 / 256, n % 256]

/-- `forward_to` (switch.c lines 93-106): the bytes written to the outbound
stream for one emission — the GLAB header with `size = htons(frame_size +
sizeof header)` and `type = htons(dst->ifc_num)`, followed by the frame
bytes unmodified. -/
def forward_to (ifcNum : Nat) (frame : List Nat) : List Nat :=
  htons16 (frame.length + 4) ++ htons16 ifcNum ++ frame

/-- The flood loop of `parse_frame` (switch.c lines 244-257, and the same
shape in the dead branch at 145-156): for `a = 0 .. num_ifc - 1`, skip the
arrival interface, else `forward_to(&gifc[a], ...)`.  The guard
`&gifc[a].ifc_num != &ifc->ifc_num` compares the addresses of elements of
`gifc`; since `handle_frame` passes `ifc = &gifc[interface - 1]` (line
277), it is false exactly at `a = arrivalIdx = interface - 1`.
`gifc[a].ifc_num = a + 1` (main, lines 331-332). -/
def floodExcept (numIfc arrivalIdx : Nat) (frame : List Nat) : List (List Nat) :=
  ((List.range numIfc).filter (fun a => a ≠ arrivalIdx)).map
    (fun a => forward_to (a + 1) frame)

/-- The interface numbers the flood loop emits to, in loop order. -/
def floodTargets (numIfc arrivalIdx : Nat) : List Nat :=
  ((List.range numIfc).filter (fun a => a ≠ arrivalIdx)).map (fun a => a + 1)

/-- Destination MAC: bytes 0-5 of the frame (`struct EthernetHeader`). -/
def frameDst (frame : List Nat) : Mac := frame.take 6

/-- Source MAC: bytes 6-11 of the frame. -/
def frameSrc (frame : List Nat) : Mac := (frame.drop 6).take 6

/-- `parse_frame` (switch.c lines 115-258) for a frame arriving on
interface number `arrivalNum` (so `ifc = &gifc[arrivalNum - 1]`).  Returns
the new state, the emissions performed (in order), and whether the process
faulted.  Control flow: length gate (122-126); dead broadcast branch
(142-157, see `line142_dst_addr_null`); learn step (167-217); destination
lookup (221-234), which faults (see `lookupLoop`) — so the forwarding
decision at 236-257 is unreachable.  In its `found` arm the code passes
`&destination_if`, a 2-byte local, as the `struct Interface *`, so the
interface number `forward_to` would emit is read out of bounds; no
determinate value exists, and the arm is dead, so no emission is modeled
there. -/
def parse_frame (st : SwitchState) (arrivalNum : Nat) (frame : List Nat) (now : Int) :
    SwitchState × List (List Nat) × Bool :=
  if frame.length < 14 then (st, [], false)
  else
    let bcastEmissions :=
      if line142_dst_addr_null = true then floodExcept st.num_ifc (arrivalNum - 1) frame
      else []
    let st1 := learn st (frameSrc frame) arrivalNum now
    match lookupLoop st1.mappings with
    | .error _ => (st1, bcastEmissions, true)
    | .ok r =>
      match r with
      | some _ => (st1, bcastEmissions, false)
      | none => (st1, bcastEmissions ++ floodExcept st1.num_ifc (arrivalNum - 1) frame, false)

/-- Outcome of `handle_frame`: contract `abort()`, an out-of-bounds
interface access, or a completed call to `parse_frame`. -/
inductive HFResult where
  | aborted
  | oobAccess
  | ran (st : SwitchState) (emissions : List (List Nat)) (crashed : Bool)
deriving DecidableEq, Repr

/-- `handle_frame` (switch.c lines 271-280): `abort()` when
`interface > num_ifc`; otherwise `parse_frame(&gifc[interface - 1], ...)`.
For `interface = 0` the index `interface - 1` is `-1` (the `uint16_t`
promotes to `int`), an interface pointer the abort check does not catch.
`&gifc[interface - 1]` is only an address computation; the first
dereference of the interface context is in the learn step (line 215,
`ifc->ifc_num` — lines 133-140, 147 and 247 only take or compare
addresses), which runs after the length gate at lines 122-126 has passed.
So at interface 0 a frame of at least 14 bytes performs the out-of-bounds
read `gifc[-1].ifc_num`, modeled as the distinct outcome `oobAccess`,
while a shorter frame is dropped at the gate and returns normally. -/
def handle_frame (st : SwitchState) (interface : Nat) (frame : List Nat) (now : Int) :
    HFResult :=
  if st.num_ifc < interface then .aborted
  else if interface = 0 ∧ 14 ≤ frame.length then .oobAccess
  else
    match parse_frame st interface frame now with
    | (st1, ems, crashed) => .ran st1 ems crashed

/-- Outcome of `handle_mac`. -/
inductive HMResult where
  | aborted
  | oobAccess
  | ok (st : SwitchState)
deriving DecidableEq, Repr

/-- `handle_mac` (switch.c lines 303-310): `abort()` when
`ifc_num > num_ifc`, else store the announced MAC at `gifc[ifc_num - 1]`.
As in `handle_frame`, `ifc_num = 0` escapes the check and indexes
`gifc[-1]`; modeled as `oobAccess`. -/
def handle_mac (st : SwitchState) (ifcNum : Nat) (mac : Mac) : HMResult :=
  if st.num_ifc < ifcNum then .aborted
  else if ifcNum = 0 then .oobAccess
  else .ok { st with ifc_macs := st.ifc_macs.set (ifcNum - 1) mac }

/-- `handle_control` (switch.c lines 288-295): overwrite the last byte of
the command with NUL (`cmd[cmd_len - 1] = 0`), log it, touch nothing else.
The switch state is passed through to make that explicit. -/
def handle_control (st : SwitchState) (cmd : List Nat) : SwitchState × List Nat :=
  (st, cmd.set (cmd.length - 1) 0)

/-- A concrete non-broadcast MAC (AA:00:00:00:00:00). -/
def macA : Mac := [170, 0, 0, 0, 0, 0]

/-- A second concrete non-broadcast MAC (BB:00:00:00:00:00). -/
def macB : Mac := [187, 0, 0, 0, 0, 0]

/-- A minimal 14-byte Ethernet frame with the given destination and source
MACs and tag bytes 08 00. -/
def mkFrame (dst src : Mac) : List Nat := dst ++ src ++ [8, 0]

/-- Table state with `macA` learned at interface 1 (slot 0, time 5). -/
def stC1 : SwitchState :=
  { initialState 4 with
    mappings := (List.replicate mappings_size zeroMapping).set 0 (Mapping.mk macA 1 5),
    mappings_next_empty := 1 }

/-- Two-interface state with `macB` learned at interface 2 (slot 0, time 5). -/
def stC2 : SwitchState :=
  { initialState 2 with
    mappings := (List.replicate mappings_size zeroMapping).set 0 (Mapping.mk macB 2 5),
    mappings_next_empty := 1 }

/-! ## Helper lemmas -/

/-- The presence branch of the learn scan never fires: its guard embeds the
always-false null checks of switch.c line 176. -/
theorem learnScan_fst_none (src : Mac) :
    ∀ (l : List Mapping) (o : Int) (oi i : Nat), (learnScan src l o oi i).1 = none := by
  intro l
  induction l with
  | nil => intro o oi i; rfl
  | cons m rest ih =>
    intro o oi i
    rw [learnScan]
    rw [if_neg (by simp [line176_null_check])]
    split
    · exact ih _ _ _
    · exact ih _ _ _

/-- Characterization of the oldest-slot scan: either no slot is strictly
older than the initial `oldest` value and the initial index is kept, or
the result is the position (offset by the starting index `i`) of the first
slot achieving the minimal timestamp, which is strictly below the initial
`oldest` value. -/
theorem learnScan_min (src : Mac) :
    ∀ (l : List Mapping) (o : Int) (oi i : Nat),
      ((learnScan src l o oi i).2 = oi ∧ ∀ m ∈ l, o ≤ m.timeRemembered)
      ∨ (∃ j, j < l.length ∧ (learnScan src l o oi i).2 = i + j
           ∧ (l.getD j zeroMapping).timeRemembered < o
           ∧ (∀ m ∈ l, (l.getD j zeroMapping).timeRemembered ≤ m.timeRemembered)
           ∧ (∀ j', j' < j →
               (l.getD j zeroMapping).timeRemembered <
                 (l.getD j' zeroMapping).timeRemembered)) := by
  intro l
  induction l with
  | nil =>
    intro o oi i
    exact Or.inl ⟨rfl, by simp⟩
  | cons m rest ih =>
    intro o oi i
    rw [learnScan, if_neg (by simp [line176_null_check])]
    by_cases hlt : m.timeRemembered < o
    · rw [if_pos hlt]
      rcases ih m.timeRemembered i (i + 1) with ⟨hres, hall⟩ | ⟨j, hj, hres, hjo, hmin, hstrict⟩
      · refine Or.inr ⟨0, by simp, by simpa using hres, ?_, ?_, ?_⟩
        · simpa using hlt
        · intro x hx
          rcases List.mem_cons.mp hx with h | h
          · simp [h]
          · simpa using hall x h
        · intro j' hj'
          omega
      · refine Or.inr ⟨j + 1, by simpa using hj, ?_, ?_, ?_, ?_⟩
        · rw [hres]; omega
        · rw [List.getD_cons_succ]; exact lt_trans hjo hlt
        · intro x hx
          rcases List.mem_cons.mp hx with h | h
          · rw [List.getD_cons_succ, h]; exact le_of_lt hjo
          · rw [List.getD_cons_succ]; exact hmin x h
        · intro j' hj'
          match j' with
          | 0 => rw [List.getD_cons_succ, List.getD_cons_zero]; exact hjo
          | j'' + 1 =>
            rw [List.getD_cons_succ, List.getD_cons_succ]
            exact hstrict j'' (by omega)
    · rw [if_neg hlt]
      rcases ih o oi (i + 1) with ⟨hres, hall⟩ | ⟨j, hj, hres, hjo, hmin, hstrict⟩
      · refine Or.inl ⟨hres, ?_⟩
        intro x hx
        rcases List.mem_cons.mp hx with h | h
        · rw [h]; omega
        · exact hall x h
      · refine Or.inr ⟨j + 1, by simpa using hj, ?_, ?_, ?_, ?_⟩
        · rw [hres]; omega
        · rw [List.getD_cons_succ]; exact hjo
        · intro x hx
          rcases List.mem_cons.mp hx with h | h
          · rw [List.getD_cons_succ, h]
            exact le_of_lt (lt_of_lt_of_le hjo (not_lt.mp hlt))
          · rw [List.getD_cons_succ]; exact hmin x h
        · intro j' hj'
          match j' with
          | 0 =>
            rw [List.getD_cons_succ, List.getD_cons_zero]
            exact lt_of_lt_of_le hjo (not_lt.mp hlt)
          | j'' + 1 =>
            rw [List.getD_cons_succ, List.getD_cons_succ]
            exact hstrict j'' (by omega)

/-- The learn scan as a pair: presence component is dead, so it equals
`(none, evictIndex)`. -/
theorem learnScan_eq (st : SwitchState) (src : Mac) (now : Int) :
    learnScan src st.mappings now 0 0 = (none, evictIndex st src now) := by
  have h1 := learnScan_fst_none src st.mappings now 0 0
  have h2 : (learnScan src st.mappings now 0 0).2 = evictIndex st src now := rfl
  cases h : learnScan src st.mappings now 0 0 with
  | mk a b =>
    rw [h] at h1 h2
    simp at h1 h2
    rw [h1, h2]

/-- Decoding the big-endian byte pair produced by `htons16`. -/
theorem htons16_decode (n : Nat) :
    256 * (htons16 n).getD 0 0 + (htons16 n).getD 1 0 = n % 65536 := by
  simp only [htons16, List.getD_cons_zero, List.getD_cons_succ]
  have hmm : n % 256 = n % 65536 % 256 := (Nat.mod_mod_of_dvd n (by norm_num)).symm
  have hdm := Nat.div_add_mod (n % 65536) 256
  omega

/-! ## Claim theorems -/

/-- C1 (refuted): the claim says that after `handle_frame` processes a
frame with non-broadcast source MAC M arriving on interface I, a lookup of
M in the address table returns I — for every table state.  Counterexample:
with `macA` already learned at interface 1 (state `stC1`), a valid frame
with source `macA` arriving on interface 2 never yields that lookup
result.  The program's own lookup (switch.c lines 225-234, embedded as
`lookupLoop`) faults on its null `maccmp` argument instead of returning
anything; and in the table itself the in-place update is dead code behind
the line-176 null checks, so the frame is appended as a duplicate at slot
1 while the stale entry (`macA`, interface 1) remains at the
lowest-numbered matching slot 0. -/
theorem claim1_lookup_faults_and_duplicates :
    (mkFrame macB macA).length = 14
    ∧ frameSrc (mkFrame macB macA) = macA
    ∧ macA ≠ broadcastMac
    ∧ (parse_frame stC1 2 (mkFrame macB macA) 6).2.2 = true
    ∧ lookupLoop (parse_frame stC1 2 (mkFrame macB macA) 6).1.mappings = .error .nullRead
    ∧ (parse_frame stC1 2 (mkFrame macB macA) 6).1.mappings.getD 0 zeroMapping
        = Mapping.mk macA 1 5
    ∧ (parse_frame stC1 2 (mkFrame macB macA) 6).1.mappings.getD 1 zeroMapping
        = Mapping.mk macA 2 6
    ∧ (parse_frame stC1 2 (mkFrame macB macA) 6).1.mappings_next_empty = 2 := by
  refine ⟨by decide, by decide, by decide, by decide, by rfl, ?_, ?_, ?_⟩ <;> decide

/-- C2 (refuted): the claim says a frame whose destination MAC is found in
the table at interface J different from the arrival interface is emitted
exactly to J.  Counterexample: in `stC2` slot 0 of the table holds the
destination `macB` at interface 2 with the fill counter at 1 (and the
entry is still there after the learn step), the frame arrives on interface
1 ≠ 2, yet processing emits nothing and faults: the destination-lookup
loop passes a null pointer to `maccmp` (switch.c line 228), so no
forwarding decision is ever reached. -/
theorem claim2_known_unicast_never_emitted :
    stC2.mappings.getD 0 zeroMapping = Mapping.mk macB 2 5
    ∧ stC2.mappings_next_empty = 1
    ∧ frameDst (mkFrame macB macA) = macB
    ∧ (2 : Nat) ≠ 1
    ∧ (parse_frame stC2 1 (mkFrame macB macA) 6).1.mappings.getD 0 zeroMapping
        = Mapping.mk macB 2 5
    ∧ (parse_frame stC2 1 (mkFrame macB macA) 6).2.1 = []
    ∧ (parse_frame stC2 1 (mkFrame macB macA) 6).2.2 = true := by
  refine ⟨by decide, by decide, by decide, by decide, ?_, ?_, ?_⟩ <;> decide

/-- C3 (refuted): the claim says a valid frame whose source MAC is the
broadcast address leaves the table unchanged and the broadcast address is
never stored as a table key.  Counterexample: the learn step of
`parse_frame` has no broadcast check, so from the empty two-interface
state a frame with source FF:FF:FF:FF:FF:FF changes the table: slot 0
becomes the live entry (broadcast, interface 1, time 7) and the fill
counter rises to 1. -/
theorem claim3_broadcast_source_is_learned :
    (mkFrame macA broadcastMac).length = 14
    ∧ frameSrc (mkFrame macA broadcastMac) = broadcastMac
    ∧ (parse_frame (initialState 2) 1 (mkFrame macA broadcastMac) 7).1 ≠ initialState 2
    ∧ (parse_frame (initialState 2) 1 (mkFrame macA broadcastMac) 7).1.mappings.getD 0
        zeroMapping = Mapping.mk broadcastMac 1 7
    ∧ (parse_frame (initialState 2) 1 (mkFrame macA broadcastMac) 7).1.mappings_next_empty
        = 1 := by
  refine ⟨by decide, by decide, ?_, ?_, ?_⟩ <;> decide

/-- C5 (refuted): the claim says re-learning the same (MAC, interface)
pair in succession keeps the number of occupied slots unchanged and that
each reachable state has at most one live entry per MAC.  Counterexample:
learning (`macA`, 1) twice from the empty state occupies two slots, both
keyed by `macA` — the presence branch of the scan is dead code, so every
frame is treated as a never-seen MAC. -/
theorem claim5_relearning_duplicates_entry :
    (learn (initialState 2) macA 1 5).mappings_next_empty = 1
    ∧ (learn (learn (initialState 2) macA 1 5) macA 1 6).mappings_next_empty = 2
    ∧ ((learn (learn (initialState 2) macA 1 5) macA 1 6).mappings.getD 0 zeroMapping).mac
        = macA
    ∧ ((learn (learn (initialState 2) macA 1 5) macA 1 6).mappings.getD 1 zeroMapping).mac
        = macA := by
  refine ⟨?_, ?_, ?_, ?_⟩ <;> decide

/-- C6 (refuted): the claim says a valid frame with broadcast destination
arriving on interface I is emitted to every other interface — here, to
interface 2 of a two-interface switch.  Counterexample: the broadcast
branch is dead (its guard `&(eh).dst == NULL` is always false) and the
processing faults in the destination lookup, so nothing at all is
emitted, although the flood the claim demands is nonempty. -/
theorem claim6_broadcast_destination_not_flooded :
    (mkFrame broadcastMac macA).length = 14
    ∧ frameDst (mkFrame broadcastMac macA) = broadcastMac
    ∧ (parse_frame (initialState 2) 1 (mkFrame broadcastMac macA) 8).2.1 = []
    ∧ (parse_frame (initialState 2) 1 (mkFrame broadcastMac macA) 8).2.2 = true
    ∧ floodTargets 2 0 = [2] := by
  refine ⟨by decide, by decide, ?_, ?_, by decide⟩ <;> decide

/-- C7 (confirmed): a frame shorter than 14 bytes is dropped at the length
gate of `parse_frame`: for any interface in range, `handle_frame`
completes normally with the table unchanged, no emissions and no fault. -/
theorem claim7_malformed_frame_dropped (st : SwitchState) (i : Nat) (frame : List Nat)
    (now : Int) (hlen : frame.length < 14) (h1 : 1 ≤ i) (h2 : i ≤ st.num_ifc) :
    handle_frame st i frame now = .ran st [] false := by
  rw [handle_frame, if_neg (by omega), if_neg (by omega)]
  rw [parse_frame, if_pos hlen]

/-- Witness for C7 at a concrete input: a 10-byte frame on interface 2 of
a three-interface switch. -/
theorem claim7_witness :
    (List.replicate 10 0).length < 14
    ∧ handle_frame (initialState 3) 2 (List.replicate 10 0) 0 = .ran (initialState 3) [] false :=
  ⟨by decide,
   claim7_malformed_frame_dropped (initialState 3) 2 (List.replicate 10 0) 0
     (by decide) (by decide) (by decide)⟩

/-- C8 counterexample: the claim says `handle_frame` and `handle_mac`
terminate the process if and only if the interface number is outside
1..N.  At interface number 0 — outside that range — neither function
reaches `abort()`: the check at switch.c lines 275 and 307 only tests
`interface > num_ifc`.  A valid frame then reaches the out-of-bounds read
of `gifc[-1]` in the learn step, and `handle_mac` writes `gifc[-1].mac`. -/
theorem claim8_counterexample :
    ¬ 1 ≤ (0 : Nat)
    ∧ handle_frame (initialState 2) 0 (mkFrame macB macA) 0 ≠ .aborted
    ∧ handle_mac (initialState 2) 0 macA ≠ .aborted
    ∧ handle_frame (initialState 2) 0 (mkFrame macB macA) 0 = .oobAccess
    ∧ handle_mac (initialState 2) 0 macA = .oobAccess := by
  refine ⟨by decide, ?_, ?_, ?_, ?_⟩ <;> decide

/-- C8 (amended): `handle_frame` and `handle_mac` abort exactly when the
interface number exceeds `num_ifc`; interface numbers in 1..N are accepted
and processed (no abort, no out-of-bounds access).  Interface 0 escapes
the abort check: `handle_mac` then writes `gifc[-1].mac` out of bounds,
and `handle_frame` reads `gifc[-1].ifc_num` out of bounds in the learn
step for a frame of at least 14 bytes — while a shorter frame is dropped
at the length gate, which precedes any dereference of the interface
context, and returns normally. -/
theorem claim8_abort_iff_above_range (st : SwitchState) (i : Nat) (frame : List Nat)
    (now : Int) (mac : Mac) :
    (handle_frame st i frame now = .aborted ↔ st.num_ifc < i)
    ∧ (handle_mac st i mac = .aborted ↔ st.num_ifc < i)
    ∧ (1 ≤ i → i ≤ st.num_ifc →
        (∃ st1 ems cr, handle_frame st i frame now = .ran st1 ems cr)
        ∧ (∃ st1, handle_mac st i mac = .ok st1))
    ∧ (i = 0 → handle_mac st i mac = .oobAccess)
    ∧ (i = 0 → 14 ≤ frame.length → handle_frame st i frame now = .oobAccess)
    ∧ (i = 0 → frame.length < 14 → handle_frame st i frame now = .ran st [] false) := by
  refine ⟨?_, ?_, ?_, ?_, ?_, ?_⟩
  · rw [handle_frame]
    by_cases h : st.num_ifc < i
    · simp [h]
    · rw [if_neg h]
      by_cases h0 : i = 0 ∧ 14 ≤ frame.length
      · simp [h0, h]
      · rw [if_neg h0]
        rcases hp : parse_frame st i frame now with ⟨st1, ems, cr⟩
        simp [h]
  · rw [handle_mac]
    by_cases h : st.num_ifc < i
    · simp [h]
    · rw [if_neg h]
      by_cases h0 : i = 0
      · simp [h0, h]
      · simp [h0, h]
  · intro h1 h2
    constructor
    · rw [handle_frame, if_neg (by omega), if_neg (by rintro ⟨hz, _⟩; omega)]
      rcases hp : parse_frame st i frame now with ⟨st1, ems, cr⟩
      exact ⟨st1, ems, cr, rfl⟩
    · rw [handle_mac, if_neg (by omega), if_neg (by omega)]
      exact ⟨_, rfl⟩
  · intro h0
    subst h0
    rw [handle_mac, if_neg (by omega), if_pos rfl]
  · intro h0 hlen
    subst h0
    rw [handle_frame, if_neg (by omega), if_pos ⟨rfl, hlen⟩]
  · intro h0 hlen
    subst h0
    rw [handle_frame, if_neg (by omega), if_neg (by rintro ⟨_, hc⟩; omega)]
    rw [parse_frame, if_pos hlen]

/-- Witness for the amended C8 at concrete inputs: on a two-interface
switch, interface 3 aborts in both entry points and interface 1 is
accepted by both. -/
theorem claim8_witness :
    handle_frame (initialState 2) 3 (mkFrame macB macA) 0 = .aborted
    ∧ handle_mac (initialState 2) 3 macA = .aborted
    ∧ (∃ st1 ems cr, handle_frame (initialState 2) 1 (mkFrame macB macA) 0 = .ran st1 ems cr)
    ∧ (∃ st1, handle_mac (initialState 2) 1 macA = .ok st1) := by
  refine ⟨?_, ?_, ?_, ?_⟩
  · exact (claim8_abort_iff_above_range (initialState 2) 3 (mkFrame macB macA) 0
      macA).1.mpr (by decide)
  · exact (claim8_abort_iff_above_range (initialState 2) 3 (mkFrame macB macA) 0
      macA).2.1.mpr (by decide)
  · exact ((claim8_abort_iff_above_range (initialState 2) 1 (mkFrame macB macA) 0
      macA).2.2.1 (by decide) (by decide)).1
  · exact ((claim8_abort_iff_above_range (initialState 2) 1 (mkFrame macB macA) 0
      macA).2.2.1 (by decide) (by decide)).2

/-- C10 (confirmed): for a command of length at least 1, `handle_control`
leaves the whole switch state (address table, interface MACs, interface
count) unchanged; its only effect on data is overwriting the final byte of
the command buffer with a NUL terminator. -/
theorem claim10_control_only_nul_terminates (st : SwitchState) (cmd : List Nat)
    (h : 1 ≤ cmd.length) :
    (handle_control st cmd).1 = st
    ∧ (handle_control st cmd).2 = cmd.take (cmd.length - 1) ++ [0]
    ∧ (handle_control st cmd).2.length = cmd.length := by
  refine ⟨rfl, ?_, ?_⟩
  · rw [handle_control]
    rw [List.set_eq_take_cons_drop 0 (by omega)]
    have hdrop : cmd.drop (cmd.length - 1 + 1) = [] := by
      apply List.drop_eq_nil_of_le
      omega
    rw [hdrop]
  · rw [handle_control]
    exact List.length_set cmd _ 0

/-- Witness for C10 at a concrete input: the 5-byte command 68 65 6C 70 0A
(the text help plus newline) gets its final byte replaced by NUL and the
state of a two-interface switch is untouched. -/
theorem claim10_witness :
    1 ≤ ([104, 101, 108, 112, 10] : List Nat).length
    ∧ (handle_control (initialState 2) [104, 101, 108, 112, 10]).1 = initialState 2
    ∧ (handle_control (initialState 2) [104, 101, 108, 112, 10]).2
        = [104, 101, 108, 112].append [0] :=
  ⟨by decide,
   (claim10_control_only_nul_terminates (initialState 2) [104, 101, 108, 112, 10]
     (by decide)).1,
   (claim10_control_only_nul_terminates (initialState 2) [104, 101, 108, 112, 10]
     (by decide)).2.1⟩

/-- C9 (confirmed for the emission machinery the code runs): the flood
loop emits through `forward_to` once per destination interface, in
strictly increasing interface-number order, the destination interfaces
being exactly 1..numIfc minus the arrival interface; and every
`forward_to` emission is the original frame byte-for-byte, prefixed by a
4-byte header whose first big-endian 16-bit field is the total length
(frame plus header, truncated to 16 bits) and whose second big-endian
16-bit field is the target interface number. -/
theorem claim9_emission_format_and_order (numIfc arrivalIdx t : Nat) (frame : List Nat) :
    floodExcept numIfc arrivalIdx frame
      = (floodTargets numIfc arrivalIdx).map (fun a => forward_to a frame)
    ∧ List.Pairwise (· < ·) (floodTargets numIfc arrivalIdx)
    ∧ (∀ a, a ∈ floodTargets numIfc arrivalIdx ↔ 1 ≤ a ∧ a ≤ numIfc ∧ a ≠ arrivalIdx + 1)
    ∧ (forward_to t frame).length = frame.length + 4
    ∧ (forward_to t frame).drop 4 = frame
    ∧ 256 * (forward_to t frame).getD 0 0 + (forward_to t frame).getD 1 0
        = (frame.length + 4) % 65536
    ∧ 256 * (forward_to t frame).getD 2 0 + (forward_to t frame).getD 3 0 = t % 65536 := by
  refine ⟨?_, ?_, ?_, ?_, ?_, ?_, ?_⟩
  · simp [floodExcept, floodTargets, List.map_map]
  · have h1 : (List.range numIfc).Pairwise (· < ·) := List.pairwise_lt_range numIfc
    have h2 : ((List.range numIfc).filter (fun a => a ≠ arrivalIdx)).Pairwise (· < ·) :=
      List.Pairwise.sublist (List.filter_sublist _) h1
    exact List.pairwise_map.mpr (h2.imp fun h => by omega)
  · intro a
    simp only [floodTargets, List.mem_map, List.mem_filter, List.mem_range,
      decide_eq_true_eq]
    constructor
    · rintro ⟨b, ⟨hb, hbne⟩, rfl⟩
      omega
    · rintro ⟨ha1, ha2, ha3⟩
      exact ⟨a - 1, ⟨by omega, by omega⟩, by omega⟩
  · simp [forward_to, htons16]
  · simp [forward_to, htons16]
  · have h := htons16_decode (frame.length + 4)
    simp only [htons16, List.getD_cons_zero, List.getD_cons_succ] at h
    simpa [forward_to, htons16] using h
  · have h := htons16_decode t
    simp only [htons16, List.getD_cons_zero, List.getD_cons_succ] at h
    simpa [forward_to, htons16] using h

/-- The learn step when the table is full: it overwrites the slot the
oldest-scan selected, leaving the fill counter in place. -/
theorem learn_full_eq (st : SwitchState) (src : Mac) (ifcNum : Nat) (now : Int)
    (hfull : ¬ st.mappings_next_empty < mappings_size) :
    learn st src ifcNum now =
      { st with mappings := st.mappings.set (evictIndex st src now) (Mapping.mk src ifcNum now) } := by
  rw [learn, learnScan_eq]
  simp [hfull]

/-- C4 (refuted as a program behavior): the claim describes a saturation
run — CAPACITY + 1 = 11 distinct fresh MACs inserted oldest-first, then
lookups showing the first MAC evicted and the other ten present.  The
program cannot execute that run: already the first valid frame of the run
faults in the destination lookup (`maccmp` receives the null pointer
`&(eh.dst) == 0`, switch.c line 228) after learning one entry, so the
table never holds more than one entry within a run and no lookup ever
returns a result — and in the real process `mappings` is never allocated
at all, so even the learn scan dereferences a null pointer at slot 0.
The theorem evaluates the very first insertion of the claim's scenario:
one slot filled, the fill counter at 1 of 10, zero emissions, and the
lookup faulting instead of answering. -/
theorem claim4_saturation_run_unreachable :
    (mkFrame macA macB).length = 14
    ∧ (parse_frame (initialState 4) 1 (mkFrame macA macB) 1).2.2 = true
    ∧ (parse_frame (initialState 4) 1 (mkFrame macA macB) 1).2.1 = []
    ∧ lookupLoop (parse_frame (initialState 4) 1 (mkFrame macA macB) 1).1.mappings
        = .error .nullRead
    ∧ (parse_frame (initialState 4) 1 (mkFrame macA macB) 1).1.mappings_next_empty = 1
    ∧ mappings_size = 10 := by
  refine ⟨by decide, by decide, by decide, by rfl, by decide, by decide⟩
